import Mathlib

/-!
Verification development for the aerodynamic acceleration partial engine
(`Tudat/Astrodynamics/OrbitDetermination/AccelerationPartials/aerodynamicAccelerationPartial.h`).

The class `AerodynamicAccelerationPartial` computes, by central finite
differences, the 3×6 Jacobian of an aerodynamic acceleration with respect to
the 6-component Cartesian state of the accelerated body, and exposes signed
3×3 block accessors, a parameter-partial lookup, and a non-translational
state-dependency query.

Machine doubles are modelled as exact rationals (`ℚ`); the IEEE not-a-number
time sentinel `TUDAT_NAN` is modelled by a dedicated constructor of `TimeVal`
whose comparison with every time value (itself included) is false, mirroring
IEEE NaN comparison semantics.  The collaborators (`FlightConditions`,
`AerodynamicAcceleration`, and the vehicle state get/set pair), whose code is
not part of the analysed sources, are modelled from the spec's collaborator
contracts as a time-keyed cache over pure recomputation functions.
-/

namespace TudatAero

abbrev Vec6 := Fin 6 → ℚ

abbrev Vec3 := Fin 3 → ℚ

abbrev Mat36 := Fin 3 → Fin 6 → ℚ

/-- A dynamically sized real matrix (`Eigen::MatrixXd`), modelled as a total
function from row/column indices to rationals. -/
abbrev Mat := ℕ → ℕ → ℚ

/-- A time value as stored by the collaborator caches: either the `TUDAT_NAN`
sentinel or an ordinary (rational-modelled double) time. -/
inductive TimeVal where
  | nan : TimeVal
  | val : ℚ → TimeVal
deriving DecidableEq

/-- IEEE-style equality on cached times: the NaN sentinel compares unequal to
everything, itself included. -/
def timeEq : TimeVal → TimeVal → Bool
  | TimeVal.val a, TimeVal.val b => a == b
  | _, _ => false

/-- Modelled from the spec: the pure recomputation behaviour of the two
stateful collaborators.  `condFn` gives the ConditionsModel's derived
environment quantities as a function of time and current vehicle state;
`accFn` gives the ForceModel's acceleration as a function of time, current
vehicle state and current conditions. -/
structure CollabModel (C : Type) where
  condFn : ℚ → Vec6 → C
  accFn : ℚ → Vec6 → C → Vec3

/-- The mutable state shared by the collaborators: the StateAccessor's vehicle
state, the ConditionsModel's cached time/conditions, and the ForceModel's
cached time/acceleration. -/
structure World (C : Type) where
  vehicleState : Vec6
  fcTime : TimeVal
  fcConditions : C
  accTime : TimeVal
  accAcceleration : Vec3

/-- Modelled from the spec: `StateAccessor.setState` overwrites the current
Cartesian state. -/
def setVehicleState {C : Type} (w : World C) (s : Vec6) : World C :=
  { w with vehicleState := s }

/-- Modelled from the spec: `ConditionsModel.resetCurrentTime(time)` overwrites
the cached time, with the NaN sentinel forcing recomputation on the next
`updateConditions`. -/
def resetCurrentTime {C : Type} (w : World C) (tv : TimeVal) : World C :=
  { w with fcTime := tv }

/-- Modelled from the spec: `ForceModel.resetTime(time)`, mirroring
`resetCurrentTime` for the acceleration model. -/
def resetTime {C : Type} (w : World C) (tv : TimeVal) : World C :=
  { w with accTime := tv }

/-- Modelled from the spec: `ConditionsModel.updateConditions(time)` recomputes
the derived environment quantities for `time` from the current vehicle state
unless the cached time already equals `time`. -/
def updateConditions {C : Type} (M : CollabModel C) (t : ℚ) (w : World C) : World C :=
  if timeEq w.fcTime (TimeVal.val t) then w
  else { w with fcConditions := M.condFn t w.vehicleState, fcTime := TimeVal.val t }

/-- Modelled from the spec: `ForceModel.updateMembers(time)` recomputes the
cached acceleration for `time` from the current vehicle state and current
conditions unless the cached time already equals `time`. -/
def updateMembers {C : Type} (M : CollabModel C) (t : ℚ) (w : World C) : World C :=
  if timeEq w.accTime (TimeVal.val t) then w
  else { w with accAcceleration := M.accFn t w.vehicleState w.fcConditions,
                accTime := TimeVal.val t }

/-- One observable collaborator call made during `update`, recorded for the
cache-invalidation ordering analysis.  Reset events carry the time value they
were invoked with. -/
inductive EventKind where
  | resetConditionsTime : TimeVal → EventKind
  | resetForceTime : TimeVal → EventKind
  | setStateEvt : EventKind
  | condUpdateEvt : EventKind
  | forceUpdateEvt : EventKind
  | readAccelEvt : EventKind
deriving DecidableEq

/-- The member data of `AerodynamicAccelerationPartial`: body identifiers, the
finite-difference step sizes `bodyStatePerturbations_`, and the cached 3×6
state partial `currentAccelerationStatePartials_`. -/
structure AerodynamicAccelerationPartial where
  acceleratedBody : String
  acceleratingBody : String
  bodyStatePerturbations : Vec6
  currentAccelerationStatePartials : Mat36

/-- `perturbedState = nominalState; perturbedState( i ) += d`. -/
def perturbState (s : Vec6) (i : Fin 6) (d : ℚ) : Vec6 :=
  fun j => if j = i then s j + d else s j

/-- One perturbed evaluation inside `update`: reset both collaborator caches
with the NaN sentinel, set the vehicle state, update conditions and the force
model for `currentTime`, and read the acceleration (header lines 213–219 and
224–230).  Returns the new world, the acceleration read, and the collaborator
call trace. -/
def evalAtState {C : Type} (M : CollabModel C) (t : ℚ) (s : Vec6) (w : World C) :
    World C × Vec3 × List EventKind :=
  let w1 := resetCurrentTime w TimeVal.nan
  let w2 := resetTime w1 TimeVal.nan
  let w3 := setVehicleState w2 s
  let w4 := updateConditions M t w3
  let w5 := updateMembers M t w4
  (w5, w5.accAcceleration,
    [EventKind.resetConditionsTime TimeVal.nan, EventKind.resetForceTime TimeVal.nan,
     EventKind.setStateEvt, EventKind.condUpdateEvt, EventKind.forceUpdateEvt,
     EventKind.readAccelEvt])

/-- One iteration of the `update` loop (header lines 210–234): up-perturbed and
down-perturbed evaluation of component `i`, and the central-difference column
written into column `i` of the cached partial. -/
def updateStep {C : Type} (M : CollabModel C) (t : ℚ) (nominal h : Vec6) (i : Fin 6)
    (w : World C) (P : Mat36) : World C × Mat36 × List EventKind :=
  let up := evalAtState M t (perturbState nominal i (h i)) w
  let down := evalAtState M t (perturbState nominal i (-(h i))) up.1
  (down.1,
   fun r j => if j = i then (up.2.1 r - down.2.1 r) / (2 * h i) else P r j,
   up.2.2 ++ down.2.2)

/-- The `update` loop over the six state components. -/
def updateAux {C : Type} (M : CollabModel C) (t : ℚ) (nominal h : Vec6) :
    List (Fin 6) → World C → Mat36 → World C × Mat36 × List EventKind
  | [], w, P => (w, P, [])
  | i :: rest, w, P =>
    let s := updateStep M t nominal h i w P
    let r := updateAux M t nominal h rest s.1 s.2.1
    (r.1, r.2.1, s.2.2 ++ r.2.2)

/-- `AerodynamicAccelerationPartial::update` (header lines 202–243): read the
nominal state, run the six perturbation iterations, then reset both caches,
restore the nominal state and update both collaborators for `currentTime`. -/
def updateFull {C : Type} (M : CollabModel C) (t : ℚ) (h : Vec6) (w : World C)
    (P0 : Mat36) : World C × Mat36 × List EventKind :=
  let nominal := w.vehicleState
  let loop := updateAux M t nominal h (List.finRange 6) w P0
  let w1 := resetCurrentTime loop.1 TimeVal.nan
  let w2 := resetTime w1 TimeVal.nan
  let w3 := setVehicleState w2 nominal
  let w4 := updateConditions M t w3
  let w5 := updateMembers M t w4
  (w5, loop.2.1,
   loop.2.2 ++
     [EventKind.resetConditionsTime TimeVal.nan, EventKind.resetForceTime TimeVal.nan,
      EventKind.setStateEvt, EventKind.condUpdateEvt, EventKind.forceUpdateEvt])

/-- `update` as a method: returns the object with the refreshed cached partial
together with the post-call collaborator world. -/
def update {C : Type} (a : AerodynamicAccelerationPartial) (M : CollabModel C)
    (t : ℚ) (w : World C) : AerodynamicAccelerationPartial × World C :=
  let r := updateFull M t a.bodyStatePerturbations w a.currentAccelerationStatePartials
  ({ a with currentAccelerationStatePartials := r.2.1 }, r.1)

/-- The acceleration value a fully invalidated evaluation at state `s`, time
`t` produces: conditions recomputed from `s`, then acceleration recomputed
from `s` and those conditions. -/
def pureAccel {C : Type} (M : CollabModel C) (t : ℚ) (s : Vec6) : Vec3 :=
  M.accFn t s (M.condFn t s)

/-- The world obtained after a fully invalidated set/update cycle at state `s`
and time `t`. -/
def cycledWorld {C : Type} (M : CollabModel C) (t : ℚ) (s : Vec6) : World C :=
  { vehicleState := s, fcTime := TimeVal.val t, fcConditions := M.condFn t s,
    accTime := TimeVal.val t, accAcceleration := pureAccel M t s }

/-- Central-difference column `i` of the Jacobian at nominal state `nominal`
with step sizes `h`. -/
def centralDiffCol {C : Type} (M : CollabModel C) (t : ℚ) (nominal h : Vec6)
    (i : Fin 6) : Vec3 :=
  fun r => (pureAccel M t (perturbState nominal i (h i)) r -
            pureAccel M t (perturbState nominal i (-(h i))) r) / (2 * h i)

/-- `partialMatrix.block( startRow, startColumn, 3, 3 ) += b`: add the 3×3
block `b` into `m` at the given offsets, leaving every other entry alone. -/
def blockAdd (m : Mat) (startRow startColumn : ℕ) (b : Fin 3 → Fin 3 → ℚ) : Mat :=
  fun r c =>
    if hrc : startRow ≤ r ∧ r < startRow + 3 ∧ startColumn ≤ c ∧ c < startColumn + 3 then
      m r c + b ⟨r - startRow, by omega⟩ ⟨c - startColumn, by omega⟩
    else m r c

/-- `partialMatrix.block( startRow, startColumn, 3, 3 ) -= b`. -/
def blockSub (m : Mat) (startRow startColumn : ℕ) (b : Fin 3 → Fin 3 → ℚ) : Mat :=
  fun r c =>
    if hrc : startRow ≤ r ∧ r < startRow + 3 ∧ startColumn ≤ c ∧ c < startColumn + 3 then
      m r c - b ⟨r - startRow, by omega⟩ ⟨c - startColumn, by omega⟩
    else m r c

/-- `currentAccelerationStatePartials_.block( 0, 0, 3, 3 )`: the position
columns of the cached 3×6 state partial. -/
def posBlock (P : Mat36) : Fin 3 → Fin 3 → ℚ :=
  fun r c => P r ⟨c.1, by omega⟩

/-- `currentAccelerationStatePartials_.block( 0, 3, 3, 3 )`: the velocity
columns of the cached 3×6 state partial. -/
def velBlock (P : Mat36) : Fin 3 → Fin 3 → ℚ :=
  fun r c => P r ⟨c.1 + 3, by omega⟩

/-- `wrtPositionOfAcceleratedBody` (header lines 51–63): add (or, when
`addContribution` is false, subtract) the position block of the cached partial
into the output matrix.  The method mutates no member data, so the object is
returned unchanged alongside the new matrix. -/
def wrtPositionOfAcceleratedBody (a : AerodynamicAccelerationPartial) (m : Mat)
    (addContribution : Bool) (startRow startColumn : ℕ) :
    AerodynamicAccelerationPartial × Mat :=
  if addContribution then
    (a, blockAdd m startRow startColumn (posBlock a.currentAccelerationStatePartials))
  else
    (a, blockSub m startRow startColumn (posBlock a.currentAccelerationStatePartials))

/-- `wrtVelocityOfAcceleratedBody` (header lines 65–77). -/
def wrtVelocityOfAcceleratedBody (a : AerodynamicAccelerationPartial) (m : Mat)
    (addContribution : Bool) (startRow startColumn : ℕ) :
    AerodynamicAccelerationPartial × Mat :=
  if addContribution then
    (a, blockAdd m startRow startColumn (velBlock a.currentAccelerationStatePartials))
  else
    (a, blockSub m startRow startColumn (velBlock a.currentAccelerationStatePartials))

/-- `wrtPositionOfAcceleratingBody` (header lines 90–101): the signs are
swapped relative to `wrtPositionOfAcceleratedBody`. -/
def wrtPositionOfAcceleratingBody (a : AerodynamicAccelerationPartial) (m : Mat)
    (addContribution : Bool) (startRow startColumn : ℕ) :
    AerodynamicAccelerationPartial × Mat :=
  if addContribution then
    (a, blockSub m startRow startColumn (posBlock a.currentAccelerationStatePartials))
  else
    (a, blockAdd m startRow startColumn (posBlock a.currentAccelerationStatePartials))

/-- `wrtVelocityOfAcceleratingBody` (header lines 103–114). -/
def wrtVelocityOfAcceleratingBody (a : AerodynamicAccelerationPartial) (m : Mat)
    (addContribution : Bool) (startRow startColumn : ℕ) :
    AerodynamicAccelerationPartial × Mat :=
  if addContribution then
    (a, blockSub m startRow startColumn (velBlock a.currentAccelerationStatePartials))
  else
    (a, blockAdd m startRow startColumn (velBlock a.currentAccelerationStatePartials))

/-- The kinds of estimable parameters the lookup can be queried with.
Modelled from the spec: the enumeration itself lives outside the analysed
sources; the lookup code only distinguishes `constant_drag_coefficient` from
everything else. -/
inductive EstimatebleParametersEnum where
  | initial_body_state : EstimatebleParametersEnum
  | gravitational_parameter : EstimatebleParametersEnum
  | constant_drag_coefficient : EstimatebleParametersEnum
  | radiation_pressure_coefficient : EstimatebleParametersEnum
deriving DecidableEq

/-- A scalar (double) estimable parameter's identity, as returned by
`getParameterName( )`: the parameter kind paired with a body identifier and a
secondary (reference-point) identifier. -/
structure EstimatableParameterD where
  parameterName : EstimatebleParametersEnum × (String × String)

/-- The flight-condition quantities read by the drag-coefficient partial:
the rotation matrix from the inertial to the aerodynamic frame, the current
airspeed and density, and the aerodynamic reference area.  Modelled from the
spec: these live in the ConditionsModel collaborator. -/
structure FlightConditionsReadout where
  rotationToAerodynamicFrame : Fin 3 → Fin 3 → ℚ
  currentAirspeed : ℚ
  currentDensity : ℚ
  referenceArea : ℚ

/-- `computeAccelerationPartialWrtCurrentDragCoefficient` (header lines
182–194): the partial is the rotated x-unit vector scaled by the dynamic
pressure times the reference area. -/
def computeAccelerationPartialWrtCurrentDragCoefficient
    (fc : FlightConditionsReadout) : Vec3 :=
  fun r => fc.rotationToAerodynamicFrame r 0 *
    (1 / 2 * fc.currentDensity * fc.currentAirspeed * fc.currentAirspeed * fc.referenceArea)

/-- `getParameterPartialFunction` for double parameters (header lines
145–166): returns the drag-coefficient partial function and one column
exactly when the parameter kind is the constant drag coefficient and the
parameter's body is the accelerated body; otherwise an absent function and
zero columns. -/
def getParameterPartialFunction (a : AerodynamicAccelerationPartial)
    (parameter : EstimatableParameterD) :
    Option (FlightConditionsReadout → Vec3) × ℕ :=
  let partialFunction : Option (FlightConditionsReadout → Vec3) := none
  let numberOfColumns : ℕ := 0
  if parameter.parameterName.1 = EstimatebleParametersEnum.constant_drag_coefficient then
    if parameter.parameterName.2.1 = a.acceleratedBody then
      (some computeAccelerationPartialWrtCurrentDragCoefficient, 1)
    else
      (partialFunction, numberOfColumns)
  else
    (partialFunction, numberOfColumns)

/-- The kinds of propagated state the dependency query can be asked about.
Modelled from the spec: the enumeration itself lives outside the analysed
sources; the query code only distinguishes `body_mass_state`. -/
inductive IntegratedStateType where
  | hybrid : IntegratedStateType
  | translational_state : IntegratedStateType
  | body_mass_state : IntegratedStateType
  | custom_state : IntegratedStateType
deriving DecidableEq

/-- `isStateDerivativeDependentOnIntegratedNonTranslationalState` (header
lines 125–136): throws a runtime error when a body-mass-state dependency is
queried for the accelerating or accelerated body, and answers `false`
otherwise. -/
def isStateDerivativeDependentOnIntegratedNonTranslationalState
    (a : AerodynamicAccelerationPartial) (stateReferencePoint : String × String)
    (integratedStateType : IntegratedStateType) : Except String Bool :=
  if (stateReferencePoint.1 = a.acceleratingBody ∨
      stateReferencePoint.1 = a.acceleratedBody) ∧
      integratedStateType = IntegratedStateType.body_mass_state then
    Except.error "Warning, dependency of central gravity on body masses not yet implemented"
  else
    Except.ok false

/-- The configuration errors the engine can raise at construction. -/
inductive ConfigError where
  | invalidConfiguration : String → ConfigError
deriving DecidableEq

/-- Modelled from the spec: the constructor of `AerodynamicAccelerationPartial`
is declared in the header but its body is outside the analysed sources; per
the spec, zero perturbation step sizes are a fatal configuration error at
construction, and nonzero step sizes yield the object with its member data
set (the per-epoch cache starts zeroed and is overwritten by `update`). -/
def mkAerodynamicAccelerationPartial (acceleratedBody acceleratingBody : String)
    (bodyStatePerturbations : Vec6) :
    Except ConfigError AerodynamicAccelerationPartial :=
  if ∀ i, bodyStatePerturbations i ≠ 0 then
    Except.ok { acceleratedBody := acceleratedBody, acceleratingBody := acceleratingBody,
                bodyStatePerturbations := bodyStatePerturbations,
                currentAccelerationStatePartials := fun _ _ => 0 }
  else
    Except.error (ConfigError.invalidConfiguration
      "Error, zero perturbation step size in aerodynamic acceleration state partial")

/-- The collaborator call trace of one perturbed evaluation. -/
def evalEvents : List EventKind :=
  [EventKind.resetConditionsTime TimeVal.nan, EventKind.resetForceTime TimeVal.nan,
   EventKind.setStateEvt, EventKind.condUpdateEvt, EventKind.forceUpdateEvt,
   EventKind.readAccelEvt]

/-- The collaborator call trace of the final nominal-state restoration. -/
def restoreEvents : List EventKind :=
  [EventKind.resetConditionsTime TimeVal.nan, EventKind.resetForceTime TimeVal.nan,
   EventKind.setStateEvt, EventKind.condUpdateEvt, EventKind.forceUpdateEvt]

theorem evalAtState_eq {C : Type} (M : CollabModel C) (t : ℚ) (s : Vec6) (w : World C) :
    evalAtState M t s w = (cycledWorld M t s, pureAccel M t s, evalEvents) := rfl

theorem updateAux_matrix {C : Type} (M : CollabModel C) (t : ℚ) (nominal h : Vec6)
    (L : List (Fin 6)) (w : World C) (P : Mat36) (r : Fin 3) (j : Fin 6) :
    (updateAux M t nominal h L w P).2.1 r j =
      if j ∈ L then centralDiffCol M t nominal h j r else P r j := by
  induction L generalizing w P with
  | nil => simp [updateAux]
  | cons i0 rest ih =>
    rw [updateAux]
    rw [ih]
    by_cases hjr : j ∈ rest
    · simp [hjr, List.mem_cons]
    · by_cases hji : j = i0
      · subst hji
        simp [hjr, updateStep, evalAtState_eq, centralDiffCol]
      · simp [hjr, hji, updateStep]

theorem updateFull_world {C : Type} (M : CollabModel C) (t : ℚ) (h : Vec6)
    (w : World C) (P : Mat36) :
    (updateFull M t h w P).1 = cycledWorld M t w.vehicleState := rfl

theorem updateFull_matrix {C : Type} (M : CollabModel C) (t : ℚ) (h : Vec6)
    (w : World C) (P : Mat36) (r : Fin 3) (j : Fin 6) :
    (updateFull M t h w P).2.1 r j = centralDiffCol M t w.vehicleState h j r := by
  have hm : (updateAux M t w.vehicleState h (List.finRange 6) w P).2.1 r j =
      if j ∈ List.finRange 6 then centralDiffCol M t w.vehicleState h j r else P r j :=
    updateAux_matrix M t w.vehicleState h (List.finRange 6) w P r j
  simpa [updateFull, List.mem_finRange] using hm

/-- The full collaborator call trace of one `update` call: twelve perturbed
evaluations (two per state component) followed by the nominal restoration. -/
def updateTrace : List EventKind :=
  evalEvents ++ evalEvents ++ evalEvents ++ evalEvents ++ evalEvents ++ evalEvents ++
  evalEvents ++ evalEvents ++ evalEvents ++ evalEvents ++ evalEvents ++ evalEvents ++
  restoreEvents

theorem updateFull_events {C : Type} (M : CollabModel C) (t : ℚ) (h : Vec6)
    (w : World C) (P : Mat36) :
    (updateFull M t h w P).2.2 = updateTrace := rfl

theorem update_matrix {C : Type} (a : AerodynamicAccelerationPartial)
    (M : CollabModel C) (t : ℚ) (w : World C) (r : Fin 3) (j : Fin 6) :
    ((update a M t w).1).currentAccelerationStatePartials r j =
      centralDiffCol M t w.vehicleState a.bodyStatePerturbations j r :=
  updateFull_matrix M t a.bodyStatePerturbations w a.currentAccelerationStatePartials r j

theorem update_world {C : Type} (a : AerodynamicAccelerationPartial)
    (M : CollabModel C) (t : ℚ) (w : World C) :
    (update a M t w).2 = cycledWorld M t w.vehicleState := rfl

/-- The all-zero output matrix. -/
def zeroMat : Mat := fun _ _ => 0

theorem blockAdd_outside (m : Mat) (sr sc : ℕ) (b : Fin 3 → Fin 3 → ℚ) (r c : ℕ)
    (hout : r < sr ∨ sr + 3 ≤ r ∨ c < sc ∨ sc + 3 ≤ c) :
    blockAdd m sr sc b r c = m r c := by
  unfold blockAdd
  exact dif_neg (by omega)

theorem blockSub_outside (m : Mat) (sr sc : ℕ) (b : Fin 3 → Fin 3 → ℚ) (r c : ℕ)
    (hout : r < sr ∨ sr + 3 ≤ r ∨ c < sc ∨ sc + 3 ≤ c) :
    blockSub m sr sc b r c = m r c := by
  unfold blockSub
  exact dif_neg (by omega)

/-- A concrete collaborator model used to instantiate universally quantified
theorems: the conditions are a rational, the acceleration a simple function of
state and conditions. -/
def demoModel : CollabModel ℚ where
  condFn := fun t s => t + s 0
  accFn := fun _ s c => fun _ => c * s 3

/-- A concrete initial collaborator world. -/
def demoWorld : World ℚ where
  vehicleState := fun j => (j : ℚ)
  fcTime := TimeVal.nan
  fcConditions := 0
  accTime := TimeVal.nan
  accAcceleration := fun _ => 0

/-- A concrete engine instance with unit step sizes. -/
def demoPartial : AerodynamicAccelerationPartial where
  acceleratedBody := "Vehicle"
  acceleratingBody := "Earth"
  bodyStatePerturbations := fun _ => 1
  currentAccelerationStatePartials := fun _ _ => 0

/-- Claim C1: for every nominal state returned by the vehicle-state get
function and every perturbation vector with all components nonzero, after
`update(t)` completes, column `i` of the cached 3×6 state partial equals the
central difference `(f(s + eᵢhᵢ) - f(s - eᵢhᵢ)) / (2 hᵢ)`, where `f` is the
acceleration obtained by setting the state, updating the flight conditions and
the acceleration model for time `t`, and reading the acceleration
(`evalAtState`). -/
theorem update_computes_central_difference {C : Type} (M : CollabModel C) (t : ℚ)
    (a : AerodynamicAccelerationPartial) (w : World C) (i : Fin 6) (r : Fin 3)
    (hne : ∀ j : Fin 6, a.bodyStatePerturbations j ≠ 0) :
    ((update a M t w).1).currentAccelerationStatePartials r i =
      ((evalAtState M t
          (perturbState w.vehicleState i (a.bodyStatePerturbations i)) w).2.1 r -
       (evalAtState M t
          (perturbState w.vehicleState i (-(a.bodyStatePerturbations i))) w).2.1 r) /
      (2 * a.bodyStatePerturbations i) := by
  rw [update_matrix, evalAtState_eq, evalAtState_eq]
  rfl

/-- Witness for C1: the concrete engine instance has all-nonzero step sizes
and its updated column 0 is the stated central difference. -/
theorem update_computes_central_difference_witness :
    (∀ j : Fin 6, demoPartial.bodyStatePerturbations j ≠ 0) ∧
    ((update demoPartial demoModel 0 demoWorld).1).currentAccelerationStatePartials 0 0 =
      ((evalAtState demoModel 0
          (perturbState demoWorld.vehicleState 0 (demoPartial.bodyStatePerturbations 0))
          demoWorld).2.1 0 -
       (evalAtState demoModel 0
          (perturbState demoWorld.vehicleState 0 (-(demoPartial.bodyStatePerturbations 0)))
          demoWorld).2.1 0) /
      (2 * demoPartial.bodyStatePerturbations 0) :=
  ⟨by decide,
   update_computes_central_difference demoModel 0 demoPartial demoWorld 0 0 (by decide)⟩

/-- Claim C2: `update` is transactionally complete: when it returns, the
StateAccessor holds exactly the nominal state it held before the call, and
both collaborator caches hold the nominal-state values for the update time —
the world is the fully invalidated nominal-state evaluation, so no perturbed
state leaks to other consumers. -/
theorem update_restores_nominal_state {C : Type} (M : CollabModel C) (t : ℚ)
    (a : AerodynamicAccelerationPartial) (w : World C) :
    ((update a M t w).2).vehicleState = w.vehicleState ∧
    (update a M t w).2 = cycledWorld M t w.vehicleState :=
  ⟨rfl, rfl⟩

/-- Claim C8: two consecutive `update` calls at the same time with unchanged
collaborator models produce identical cached 3×6 state partials; the second
call starts from the world the first call restored and fully recomputes the
same matrix. -/
theorem update_twice_same_cached_state_partials {C : Type} (M : CollabModel C)
    (t : ℚ) (a : AerodynamicAccelerationPartial) (w : World C) :
    ((update (update a M t w).1 M t (update a M t w).2).1).currentAccelerationStatePartials =
      ((update a M t w).1).currentAccelerationStatePartials := by
  funext r j
  rw [update_matrix, update_matrix]
  rfl

/-- Claim C3: on zero-initialized output blocks with `addContribution = true`,
the accelerated-body accessors add the raw cached block and the
accelerating-body accessors add the negated block, so corresponding entries
are exact negations of each other, for position and velocity alike. -/
theorem accelerating_block_negates_accelerated_block
    (a : AerodynamicAccelerationPartial) (sr sc r c : ℕ) :
    (wrtPositionOfAcceleratedBody a zeroMat true sr sc).2 r c =
      -((wrtPositionOfAcceleratingBody a zeroMat true sr sc).2 r c) ∧
    (wrtVelocityOfAcceleratedBody a zeroMat true sr sc).2 r c =
      -((wrtVelocityOfAcceleratingBody a zeroMat true sr sc).2 r c) := by
  constructor
  · show blockAdd zeroMat sr sc (posBlock a.currentAccelerationStatePartials) r c =
      -(blockSub zeroMat sr sc (posBlock a.currentAccelerationStatePartials) r c)
    unfold blockAdd blockSub zeroMat
    split <;> ring
  · show blockAdd zeroMat sr sc (velBlock a.currentAccelerationStatePartials) r c =
      -(blockSub zeroMat sr sc (velBlock a.currentAccelerationStatePartials) r c)
    unfold blockAdd blockSub zeroMat
    split <;> ring

/-- Claim C9: on a zero-initialized output block, adding the position partial
with `addContribution = true` and then calling the same accessor with
`addContribution = false` and identical offsets restores the block to all
zeros: the two calls are additive inverses. -/
theorem add_then_subtract_restores_zero (a : AerodynamicAccelerationPartial)
    (sr sc : ℕ) :
    (wrtPositionOfAcceleratedBody a
       (wrtPositionOfAcceleratedBody a zeroMat true sr sc).2 false sr sc).2 = zeroMat := by
  funext r c
  show blockSub (blockAdd zeroMat sr sc (posBlock a.currentAccelerationStatePartials))
      sr sc (posBlock a.currentAccelerationStatePartials) r c = zeroMat r c
  by_cases hrc : sr ≤ r ∧ r < sr + 3 ∧ sc ≤ c ∧ c < sc + 3
  · unfold blockSub blockAdd zeroMat
    rw [dif_pos hrc, dif_pos hrc]
    ring
  · unfold blockSub blockAdd zeroMat
    rw [dif_neg hrc, dif_neg hrc]

/-- Claim C10: each of the four block accessors modifies only the 3×3
sub-block of the output matrix starting at `(startRow, startColumn)`: every
entry outside that sub-block is unchanged, and the object's member data — the
cached 3×6 state partial included — is unchanged by every accessor call. -/
theorem accessors_touch_only_their_block (a : AerodynamicAccelerationPartial)
    (m : Mat) (add : Bool) (sr sc r c : ℕ)
    (hout : r < sr ∨ sr + 3 ≤ r ∨ c < sc ∨ sc + 3 ≤ c) :
    ((wrtPositionOfAcceleratedBody a m add sr sc).1 = a ∧
     (wrtPositionOfAcceleratedBody a m add sr sc).2 r c = m r c) ∧
    ((wrtVelocityOfAcceleratedBody a m add sr sc).1 = a ∧
     (wrtVelocityOfAcceleratedBody a m add sr sc).2 r c = m r c) ∧
    ((wrtPositionOfAcceleratingBody a m add sr sc).1 = a ∧
     (wrtPositionOfAcceleratingBody a m add sr sc).2 r c = m r c) ∧
    ((wrtVelocityOfAcceleratingBody a m add sr sc).1 = a ∧
     (wrtVelocityOfAcceleratingBody a m add sr sc).2 r c = m r c) := by
  cases add <;>
    exact ⟨⟨rfl, by first
        | exact blockAdd_outside m sr sc _ r c hout
        | exact blockSub_outside m sr sc _ r c hout⟩,
      ⟨rfl, by first
        | exact blockAdd_outside m sr sc _ r c hout
        | exact blockSub_outside m sr sc _ r c hout⟩,
      ⟨rfl, by first
        | exact blockAdd_outside m sr sc _ r c hout
        | exact blockSub_outside m sr sc _ r c hout⟩,
      ⟨rfl, by first
        | exact blockAdd_outside m sr sc _ r c hout
        | exact blockSub_outside m sr sc _ r c hout⟩⟩

/-- Witness for C10: at offsets `(0, 0)` the entry `(4, 0)` lies outside the
written 3×3 sub-block, and the accessors leave it and the object unchanged. -/
theorem accessors_touch_only_their_block_witness :
    ((0 : ℕ) + 3 ≤ 4) ∧
    (((wrtPositionOfAcceleratedBody demoPartial zeroMat true 0 0).1 = demoPartial ∧
      (wrtPositionOfAcceleratedBody demoPartial zeroMat true 0 0).2 4 0 = zeroMat 4 0) ∧
     ((wrtVelocityOfAcceleratedBody demoPartial zeroMat true 0 0).1 = demoPartial ∧
      (wrtVelocityOfAcceleratedBody demoPartial zeroMat true 0 0).2 4 0 = zeroMat 4 0) ∧
     ((wrtPositionOfAcceleratingBody demoPartial zeroMat true 0 0).1 = demoPartial ∧
      (wrtPositionOfAcceleratingBody demoPartial zeroMat true 0 0).2 4 0 = zeroMat 4 0) ∧
     ((wrtVelocityOfAcceleratingBody demoPartial zeroMat true 0 0).1 = demoPartial ∧
      (wrtVelocityOfAcceleratingBody demoPartial zeroMat true 0 0).2 4 0 = zeroMat 4 0)) :=
  ⟨by decide,
   accessors_touch_only_their_block demoPartial zeroMat true 0 0 4 0
     (Or.inr (Or.inl (by decide)))⟩

/-- Claim C4: the scalar parameter-partial lookup returns one column together
with the drag-coefficient partial function exactly when the parameter's kind
is the constant drag coefficient and its body identifier is the accelerated
body; for every other parameter it returns zero columns and an absent
function (a total computation — no exception is raised). -/
theorem parameter_partial_lookup_characterization
    (a : AerodynamicAccelerationPartial) (p : EstimatableParameterD) :
    (getParameterPartialFunction a p =
        (some computeAccelerationPartialWrtCurrentDragCoefficient, 1) ↔
      (p.parameterName.1 = EstimatebleParametersEnum.constant_drag_coefficient ∧
       p.parameterName.2.1 = a.acceleratedBody)) ∧
    (getParameterPartialFunction a p = (none, 0) ↔
      ¬(p.parameterName.1 = EstimatebleParametersEnum.constant_drag_coefficient ∧
        p.parameterName.2.1 = a.acceleratedBody)) := by
  by_cases h1 : p.parameterName.1 = EstimatebleParametersEnum.constant_drag_coefficient
  · by_cases h2 : p.parameterName.2.1 = a.acceleratedBody
    · simp [getParameterPartialFunction, h1, h2]
    · simp [getParameterPartialFunction, h1, h2]
  · simp [getParameterPartialFunction, h1]

/-- Claim C5: construction fails with an invalid-configuration error exactly
when some component of the perturbation step-size vector is zero; all-nonzero
step sizes are a checked requirement of the engine. -/
theorem zero_step_size_is_configuration_error
    (acceleratedBody acceleratingBody : String) (h : Vec6) :
    (∃ e, mkAerodynamicAccelerationPartial acceleratedBody acceleratingBody h =
        Except.error e) ↔ (∃ i, h i = 0) := by
  by_cases hall : ∀ i, h i ≠ 0
  · simp [mkAerodynamicAccelerationPartial, hall]
  · have hzero : ∃ i, h i = 0 := by
      push_neg at hall
      exact hall
    simp [mkAerodynamicAccelerationPartial, hall, hzero]

/-- Claim C6: the non-translational state-dependency query raises a runtime
error if and only if the queried state type is the body-mass state and the
reference point's body identifier equals the accelerating or the accelerated
body identifier; for every other query it raises nothing and returns
`false`. -/
theorem mass_state_dependency_guard (a : AerodynamicAccelerationPartial)
    (stateReferencePoint : String × String)
    (integratedStateType : IntegratedStateType) :
    ((∃ e, isStateDerivativeDependentOnIntegratedNonTranslationalState
        a stateReferencePoint integratedStateType = Except.error e) ↔
      (integratedStateType = IntegratedStateType.body_mass_state ∧
       (stateReferencePoint.1 = a.acceleratingBody ∨
        stateReferencePoint.1 = a.acceleratedBody))) ∧
    (isStateDerivativeDependentOnIntegratedNonTranslationalState
        a stateReferencePoint integratedStateType = Except.ok false ↔
      ¬(integratedStateType = IntegratedStateType.body_mass_state ∧
        (stateReferencePoint.1 = a.acceleratingBody ∨
         stateReferencePoint.1 = a.acceleratedBody))) := by
  by_cases hc : (stateReferencePoint.1 = a.acceleratingBody ∨
      stateReferencePoint.1 = a.acceleratedBody) ∧
      integratedStateType = IntegratedStateType.body_mass_state
  · simp [isStateDerivativeDependentOnIntegratedNonTranslationalState, hc]
  · simp [isStateDerivativeDependentOnIntegratedNonTranslationalState, hc]
    tauto

/-- Between consecutive occurrences of the probe event `pe` in the trace (and
before the first one), a reset event `re` must occur: `armed` records whether
a reset has been seen since the last probe. -/
def invalidatedBefore (re pe : EventKind) : Bool → List EventKind → Bool
  | _, [] => true
  | armed, e :: rest =>
    if e = pe then armed && invalidatedBefore re pe false rest
    else if e = re then invalidatedBefore re pe true rest
    else invalidatedBefore re pe armed rest

/-- Claim C7: in the collaborator call trace of `update`, every conditions
update and every force-model update — the 13 evaluations, of which the 12
carrying an acceleration read are the perturbed ones — is preceded, since the
previous such update, by a cache reset invoked with the NaN sentinel; since
the nominal restoration is the last evaluation, each of the 12 perturbed
evaluations is thereby both preceded and followed by an invalidation of both
caches, and the sentinel compares unequal to every time value, so no update
in the cycle can reuse a stale cached value from a differently perturbed
state. -/
theorem update_invalidates_caches_around_evaluations {C : Type}
    (M : CollabModel C) (t : ℚ) (h : Vec6) (w : World C) (P : Mat36) :
    invalidatedBefore (EventKind.resetConditionsTime TimeVal.nan)
      EventKind.condUpdateEvt false (updateFull M t h w P).2.2 = true ∧
    invalidatedBefore (EventKind.resetForceTime TimeVal.nan)
      EventKind.forceUpdateEvt false (updateFull M t h w P).2.2 = true ∧
    (updateFull M t h w P).2.2.count EventKind.condUpdateEvt = 13 ∧
    (updateFull M t h w P).2.2.count EventKind.forceUpdateEvt = 13 ∧
    (updateFull M t h w P).2.2.count EventKind.readAccelEvt = 12 ∧
    (∀ tv, timeEq TimeVal.nan tv = false) ∧
    (∀ tv, timeEq tv TimeVal.nan = false) := by
  refine ⟨?_, ?_, ?_, ?_, ?_, ?_, ?_⟩
  · rw [updateFull_events]; decide
  · rw [updateFull_events]; decide
  · rw [updateFull_events]; decide
  · rw [updateFull_events]; decide
  · rw [updateFull_events]; decide
  · intro tv; cases tv <;> rfl
  · intro tv; cases tv <;> rfl

end TudatAero
